import Mathlib

/-
Verification development for the async runtime (reactor + executors).
The definitions below are a shallow embedding of the C++ sources:
  - Reactor / ReactorLock.react / processTimers / processTimeOps
    (include/Async/Reactor section of the sources)
  - Source / Direction parking slots
  - InlineExecutor (queue, execute, the block drive loop)
  - Reactor.insertIo with the slab
Machine details are modelled as follows: a coroutine handle is
`Option Nat` with `none` standing for the null handle; time points and
durations are `Int` nanoseconds; the std::map of timers is an
association list kept sorted on the lexicographic key (TimePoint, id);
the poller is external, so its wait result is an input of `react`.
-/

namespace AsyncIo

/-- A coroutine handle; `none` models the null handle. -/
abbrev Handle := Option Nat

/-- Timer map key: (expiry TimePoint in ns, issued id), as in
`std::map<std::pair<TimePoint, size_t>, handle>`. -/
abbrev TimerKey := Int × Nat

/-- The sorted timer map, association list ordered by `timerKeyLt`. -/
abbrev Timers := List (TimerKey × Handle)

/-- Strict lexicographic order on timer keys, mirroring
`std::pair` comparison of (TimePoint, size_t). -/
def timerKeyLt (a b : TimerKey) : Bool :=
  a.1 < b.1 || (a.1 = b.1 && a.2 < b.2)

/-- `std::map::insert`: inserts at the sorted position when the key is
absent and leaves the map unchanged when the key is present. -/
def timersInsert (ts : Timers) (k : TimerKey) (h : Handle) : Timers :=
  match ts with
  | [] => [(k, h)]
  | (k0, h0) :: rest =>
    if timerKeyLt k k0 then (k, h) :: (k0, h0) :: rest
    else if k = k0 then (k0, h0) :: rest
    else (k0, h0) :: timersInsert rest k h

/-- `std::map::erase(key)`: removes the entry with that exact key. -/
def timersErase (ts : Timers) (k : TimerKey) : Timers :=
  ts.filter (fun e => e.1 ≠ k)

/-- Map lookup by key, mirroring `mTimers[entry]` on a present key
(`.getD none` supplies the default-constructed null handle when the
key is absent, as operator[] would). -/
def timersLookup (ts : Timers) (k : TimerKey) : Option Handle :=
  (ts.find? (fun e => e.1 = k)).map (·.2)

/-- A timer op submitted over the MPSC queue: `TimerOp::Insert{key(id),
when, handle}` or `TimerOp::Remove{key(id), when}`. -/
inductive TimerOp where
  | insertOp (id : Nat) (when : Int) (handle : Handle)
  | removeOp (id : Nat) (when : Int)
  deriving Repr, DecidableEq

/-- `Reactor::processTimeOps`: drain the op queue in FIFO order into the
timer map; inserts use map key (when, id), removes erase that key. -/
def processTimeOps (ops : List TimerOp) (ts : Timers) : Timers :=
  ops.foldl (fun ts op =>
    match op with
    | .insertOp id when h => timersInsert ts (when, id) h
    | .removeOp id when => timersErase ts (when, id)) ts

/-- First minimum of the expiry times of a key list, matching
`std::min_element` with comparator `a.first < b.first` (only the
minimal TimePoint value is consumed afterwards). -/
def minTime : List TimerKey → Option Int
  | [] => none
  | k :: rest =>
    match minTime rest with
    | none => some k.1
    | some m => some (min k.1 m)

/-- Result of one `Reactor::processTimers` call: the timer map after the
op drain, the handles appended to the output vector, and the returned
optional duration. -/
structure TimersScan where
  timers : Timers
  handles : List Handle
  duration : Option Int
  deriving Repr, DecidableEq

/-- `Reactor::processTimers`, translated line by line: drain ops, set
`now = steady_clock::now() + 1ns` (`now0` is the clock reading),
partition map keys into ready (`first <= now`) and pending, compute the
returned duration only when ready is empty (min pending minus now
clamped at 0ns, and 0ns when pending is also empty), and push the
handle of every ready key. Ready entries are not erased from the map. -/
def processTimers (ops : List TimerOp) (ts0 : Timers) (now0 : Int) : TimersScan :=
  let ts := processTimeOps ops ts0
  let now := now0 + 1
  let ready := (ts.filter (fun e => e.1.1 ≤ now)).map (·.1)
  let pending := (ts.filter (fun e => ¬ (e.1.1 ≤ now))).map (·.1)
  let duration : Option Int :=
    if ready.isEmpty then
      match minTime pending with
      | some t => some (if t - now < 0 then 0 else t - now)
      | none => some 0
    else none
  let hs := ready.map (fun k => (timersLookup ts k).getD none)
  ⟨ts, hs, duration⟩

/-- The waitTimeout computation at the head of `ReactorLock::react`:
the three-branch if chain over the caller timeout and the duration
returned by processTimers. -/
def computeWaitTimeout (timeout nextTimer : Option Int) : Option Int :=
  match timeout, nextTimer with
  | some t, none => some t
  | some t, some n => some (min t n)
  | none, some n => some n
  | none, none => none

/-- A poller event: {key, readable, writable}, as produced by
`Poller::wait` and consumed by the dispatch loop in react. -/
structure Event where
  key : Nat
  readable : Bool
  writable : Bool
  deriving Repr, DecidableEq

/-- One parking slot (`struct Direction`): holds a coroutine handle,
null when empty. -/
structure Direction where
  handle : Handle
  deriving Repr, DecidableEq

/-- `Direction::takeHandle`: `std::exchange(handle, nullptr)` — returns
the stored handle (possibly null) and empties the slot. -/
def Direction.takeHandle (d : Direction) : Handle × Direction :=
  (d.handle, ⟨none⟩)

/-- `Direction::isEmpty`: the stored handle is null. -/
def Direction.isEmpty (d : Direction) : Bool :=
  d.handle.isNone

/-- `Source::State`: the read and write parking slots of one Source. -/
structure SourceState where
  read : Direction
  write : Direction
  deriving Repr, DecidableEq

/-- `Source::setReadable` (state part, the mutex is external to the
model): install the handle and return true when the read slot is
empty, otherwise return false and leave the state untouched. -/
def SourceState.setReadable (s : SourceState) (h : Handle) : Bool × SourceState :=
  if s.read.isEmpty then (true, { s with read := ⟨h⟩ })
  else (false, s)

/-- `Source::setWritable`: same as setReadable for the write slot. -/
def SourceState.setWritable (s : SourceState) (h : Handle) : Bool × SourceState :=
  if s.write.isEmpty then (true, { s with write := ⟨h⟩ })
  else (false, s)

/-- The slab of sources as seen by the dispatch loop of react: key to
parking state of the Source stored under that key. -/
abbrev SourceMap := List (Nat × SourceState)

/-- `mSources.get(key)` on the dispatch slab. -/
def sourcesGet (m : SourceMap) (k : Nat) : Option SourceState :=
  (m.find? (fun e => e.1 = k)).map (·.2)

/-- Write back the mutated state of the Source stored under key k. -/
def sourcesSet (m : SourceMap) (k : Nat) (st : SourceState) : SourceMap :=
  m.map (fun e => if e.1 = k then (k, st) else e)

/-- The event dispatch loop of `ReactorLock::react`: for each event,
look the Source up by key (events with an absent key are dropped); when
the event is writable take the write slot handle, otherwise when it is
readable take the read slot handle, and push the taken handle (null or
not) onto the handles vector; an event with neither flag set takes
nothing. -/
def dispatchEvents (srcs : SourceMap) (events : List Event) :
    SourceMap × List Handle :=
  events.foldl (fun acc ev =>
    match sourcesGet acc.1 ev.key with
    | none => acc
    | some st =>
      if ev.writable then
        let taken := st.write.takeHandle
        (sourcesSet acc.1 ev.key { st with write := taken.2 }, acc.2 ++ [taken.1])
      else if ev.readable then
        let taken := st.read.takeHandle
        (sourcesSet acc.1 ev.key { st with read := taken.2 }, acc.2 ++ [taken.1])
      else acc) (srcs, [])

/-- Error cases of `Poller::wait`: EINTR (`std::errc::interrupted`) or
another OS error code. -/
inductive PollErr where
  | interrupted
  | os (code : Nat)
  deriving Repr, DecidableEq

/-- Everything `ReactorLock::react` produces in the model: the
StdResult return value, the handles vector handed to
`executor.execute`, the timer map and source slab afterwards, the
waitTimeout passed to `poller.wait`, and a flag recording whether the
expression `*waitTimeout != 0s` was evaluated while waitTimeout was
empty (which in the C++ is undefined behaviour). -/
structure ReactResult where
  res : Except PollErr Unit
  handles : List Handle
  timers : Timers
  sources : SourceMap
  waitUsed : Option Int
  derefEmptyWait : Bool
  deriving Repr

/-- `ReactorLock::react`, translated step by step. The poller is
external, so its outcome `pollRes` is an input: `.ok events` models a
successful wait that filled mEvents with `events` (the returned count
is the number of events), `.error e` a failed wait. `now1` and `now2`
are the clock readings of the first and the (possible) second
processTimers call. The C++ evaluates `*waitTimeout != 0s` even when
waitTimeout is empty; the model records that in derefEmptyWait and
reads the comparison as false there (getD 0). The StdResult error
branches are kept as in the source: EINTR yields a success result,
any other error is stored in the result; in both cases the handles
collected so far are still passed to the executor. StdResult itself is
not under src; modelled from the spec as a value-or-OS-error result
(Except), with `res.emplace()` storing success and the error branch
storing `r.error()`. -/
def react (timeout : Option Int) (ops : List TimerOp) (ts0 : Timers)
    (srcs : SourceMap) (now1 now2 : Int)
    (pollRes : Except PollErr (List Event)) : ReactResult :=
  let scan1 := processTimers ops ts0 now1
  let waitTimeout := computeWaitTimeout timeout scan1.duration
  match pollRes with
  | .ok events =>
    if events.isEmpty then
      let deref := waitTimeout.isNone
      if waitTimeout.getD 0 ≠ 0 then
        let scan2 := processTimers [] scan1.timers now2
        ⟨.ok (), scan1.handles ++ scan2.handles, scan2.timers, srcs, waitTimeout, deref⟩
      else
        ⟨.ok (), scan1.handles, scan1.timers, srcs, waitTimeout, deref⟩
    else
      let dispatched := dispatchEvents srcs events
      ⟨.ok (), scan1.handles ++ dispatched.2, scan1.timers, dispatched.1, waitTimeout, false⟩
  | .error .interrupted =>
    ⟨.ok (), scan1.handles, scan1.timers, srcs, waitTimeout, false⟩
  | .error (.os c) =>
    ⟨.error (.os c), scan1.handles, scan1.timers, srcs, waitTimeout, false⟩

/-- `InlineExecutor::execute(handle) { handle.resume(); }`, as an effect
on the executor: given the current run queue and the handle, return the
queue afterwards and the list of handles resumed inline by the call.
The body resumes the handle and never touches the queue. -/
def inlineExecute (queue : List Handle) (h : Handle) : List Handle × List Handle :=
  (queue, [h])

/-- The data of one `Source` object as created by insertIo: the fd and
the slab key it was registered under. -/
structure SourceRec where
  fd : Int
  key : Nat
  deriving Repr, DecidableEq

/-- A `std::shared_ptr<Source>`: `none` models both the null pointer and
the moved-from state. -/
abbrev SourcePtr := Option SourceRec

/-- The reactor slab `Slab<std::shared_ptr<Source>>` as an association
list from key to stored pointer. -/
abbrev SourceSlab := List (Nat × SourcePtr)

/-- Keys currently used in the slab. -/
def slabKeys (s : SourceSlab) : List Nat :=
  s.map (·.1)

/-- Modelled from the spec: Slab is repository code not under src; the
spec describes `vacant_entry() → key_preview` with dense keys that are
reused after removal, so the vacant key is the smallest unused one. -/
def vacantKey (s : SourceSlab) : Nat :=
  ((List.range (s.length + 1)).find? (fun k => !(slabKeys s).contains k)).getD s.length

/-- Modelled from the spec: Slab `insert(value) → key` stores the value
under the vacant key and returns that key; insert takes the value by
ownership (the C++ call site passes `std::move(source)`). -/
def slabInsert (s : SourceSlab) (v : SourcePtr) : Nat × SourceSlab :=
  (vacantKey s, s ++ [(vacantKey s, v)])

/-- Modelled from the spec: Slab `try_remove(key) → optional<value>`
removes and returns the entry stored under the key if present. -/
def slabTryRemove (s : SourceSlab) (k : Nat) : Option SourcePtr × SourceSlab :=
  match s.find? (fun e => e.1 = k) with
  | some e => (some e.2, s.filter (fun e2 => e2.1 ≠ k))
  | none => (none, s)

/-- Outcome of `Reactor::insertIo`: the returned
`StdResult<std::shared_ptr<Source>>` (the ok payload is the pointer
value actually returned), the slab afterwards, and a flag recording
whether `source->key` was read through the moved-from pointer. -/
structure InsertIoResult where
  ret : Except Nat SourcePtr
  slab : SourceSlab
  derefMovedPtr : Bool
  deriving Repr

/-- `Reactor::insertIo`, translated step by step: take the vacant key,
make the Source for (fd, key), move the shared_ptr into the slab
(assert k == key), then call `poller.add(fd, Event::None(source->key))`
— reading `source->key` through the pointer variable AFTER it was moved
into the slab, so through a null pointer — and on poller failure remove
the fresh entry and return the error, else return the (moved-from)
`source` variable. The poller is external, so its outcome is the input
`pollerAddErr` (`none` = add succeeded). -/
def insertIoFn (slab0 : SourceSlab) (fd : Int) (pollerAddErr : Option Nat) :
    InsertIoResult :=
  let key := vacantKey slab0
  let source : SourcePtr := some ⟨fd, key⟩
  let ins := slabInsert slab0 source
  let slab1 := ins.2
  let sourceMoved : SourcePtr := none
  let derefMoved := sourceMoved.isNone
  match pollerAddErr with
  | some err => ⟨.error err, (slabTryRemove slab1 key).2, derefMoved⟩
  | none => ⟨.ok sourceMoved, slab1, derefMoved⟩

/-- The observable state of `InlineExecutor::block` inside its drive
loop: the run queue, the spawn counter, and whether the result slot of
the top-level task has been filled (returnValue.has_value() in the T
overload, hasValue in the void overload). -/
structure InlineState where
  queue : List Handle
  spawnCount : Nat
  hasValue : Bool
  deriving Repr, DecidableEq

/-- The inner `while (!mQueue.empty())` drain of the block loop: pop the
front handle and resume it. Resuming runs arbitrary task code, which
may push handles, change the spawn count or fill the result slot; that
effect is the oracle parameter `resume`. Fuel makes the loop total;
`none` means the fuel ran out, `some s` means the queue drained. -/
def drainQueue (resume : Handle → InlineState → InlineState) :
    Nat → InlineState → Option InlineState
  | 0, _ => none
  | fuel + 1, s =>
    match s.queue with
    | [] => some s
    | h :: rest => drainQueue resume fuel (resume h { s with queue := rest })

/-- The `while (true)` drive loop of `InlineExecutor::block`: drain the
queue, then break exactly when `mSpawnCount == 0 && hasValue &&
mQueue.empty()`, else call `reactor.lock().react(nullopt, *this)` —
whose effect on the executor state (it resumes collected handles
through execute) is the oracle `reactStep` — and go round again.
`some s` is the state at the moment block returns. -/
def driveLoop (resume : Handle → InlineState → InlineState)
    (reactStep : InlineState → InlineState) :
    Nat → InlineState → Option InlineState
  | 0, _ => none
  | fuel + 1, s =>
    match drainQueue resume (fuel + 1) s with
    | none => none
    | some s1 =>
      if s1.spawnCount == 0 && s1.hasValue && s1.queue.isEmpty then some s1
      else driveLoop resume reactStep fuel (reactStep s1)

/-- Claim C1: the claim says the effective wait passed to poller.wait is
min of the caller timeout and the next pending deadline, indefinite when
both are absent, and 0 whenever the ready list is non-empty. The code
computes the opposite on the boundary cases: at an input with one
already-expired timer (ready list non-empty, shown by the collected
handle) and no caller timeout, the wait passed to poller.wait is `none`
(indefinite), and at an input with no timers and no caller timeout it
is `some 0` instead of indefinite. -/
theorem react_wait_inversion_at_input :
    ((processTimers [] [(((0 : Int), (1 : Nat)), some 8)] 5).handles = [some 8]
      ∧ (react none [] [(((0 : Int), (1 : Nat)), some 8)] [] 5 5 (.ok [])).waitUsed = none)
    ∧ (react none [] [] [] 5 5 (.ok [])).waitUsed = some 0 := by
  decide

/-- Claim C2: the claim says an expired timer handle is collected exactly
once. The code never erases ready entries from the timer map: at an
input with one expired timer and no removeTimer op, a react call
collects the handle and leaves the entry in the map, and the following
processTimers call collects the very same handle again. -/
theorem timer_collected_twice_at_input :
    ((react none [] [(((0 : Int), (0 : Nat)), some 7)] [] 5 5 (.ok [])).handles = [some 7]
      ∧ (react none [] [(((0 : Int), (0 : Nat)), some 7)] [] 5 5 (.ok [])).timers
          = [(((0 : Int), (0 : Nat)), some 7)])
    ∧ (processTimers [] [(((0 : Int), (0 : Nat)), some 7)] 5).handles = [some 7]
    ∧ (processTimers [] (processTimers [] [(((0 : Int), (0 : Nat)), some 7)] 5).timers 5).handles
        = [some 7] := by
  decide

/-- Claim C3, counterexample: the claim says each poller event takes
exactly one parking slot handle (write parker when writable, otherwise
the read parker). At an event with neither flag set whose key is in the
slab and whose Source has a read parker installed, the dispatch loop
takes no handle at all. -/
theorem dispatch_no_flag_counterexample :
    ¬ ((dispatchEvents [(0, ⟨⟨some 5⟩, ⟨none⟩⟩)] [⟨0, false, false⟩]).2.length = 1) := by
  decide

/-- Claim C3, amended: for each event, when the key is absent from the
slab the event is silently dropped; when present, a writable event
takes and collects exactly the write slot handle, a readable and not
writable event takes and collects exactly the read slot handle, and an
event with neither flag set takes nothing. -/
theorem dispatch_single_event_spec (m : SourceMap) (ev : Event) :
    dispatchEvents m [ev] =
      match sourcesGet m ev.key with
      | none => (m, [])
      | some st =>
        if ev.writable then
          (sourcesSet m ev.key { st with write := ⟨none⟩ }, [st.write.handle])
        else if ev.readable then
          (sourcesSet m ev.key { st with read := ⟨none⟩ }, [st.read.handle])
        else (m, []) := by
  cases hg : sourcesGet m ev.key with
  | none => simp [dispatchEvents, hg]
  | some st =>
    by_cases hw : ev.writable <;> by_cases hr : ev.readable <;>
      simp [dispatchEvents, hg, hw, hr, Direction.takeHandle]

/-- Claim C4: for each direction at most one parker is installed at any
moment; installing into an occupied slot returns false and leaves the
previously installed handle unchanged, installing into an empty slot
stores the handle and returns true. -/
theorem source_parker_at_most_one (s : SourceState) (h : Handle) :
    (s.read.isEmpty = true → s.setReadable h = (true, { s with read := ⟨h⟩ }))
    ∧ (s.read.isEmpty = false → s.setReadable h = (false, s))
    ∧ (s.write.isEmpty = true → s.setWritable h = (true, { s with write := ⟨h⟩ }))
    ∧ (s.write.isEmpty = false → s.setWritable h = (false, s)) := by
  refine ⟨?_, ?_, ?_, ?_⟩ <;> intro hh <;>
    simp [SourceState.setReadable, SourceState.setWritable, hh]

/-- Claim C4, witness: on a Source with an installed read parker and an
empty write slot, setReadable of another handle fails and leaves the
state untouched, while setWritable installs the handle. -/
theorem source_parker_at_most_one_witness :
    (SourceState.mk ⟨some 5⟩ ⟨none⟩).setReadable (some 3) = (false, ⟨⟨some 5⟩, ⟨none⟩⟩)
    ∧ (SourceState.mk ⟨some 5⟩ ⟨none⟩).setWritable (some 3) = (true, ⟨⟨some 5⟩, ⟨some 3⟩⟩) :=
  ⟨(source_parker_at_most_one ⟨⟨some 5⟩, ⟨none⟩⟩ (some 3)).2.1 (by decide),
   (source_parker_at_most_one ⟨⟨some 5⟩, ⟨none⟩⟩ (some 3)).2.2.1 (by decide)⟩

/-- Claim C5, counterexample: the claim says InlineExecutor execute
pushes the handle into the local run queue and does not resume it.
Starting from an empty queue, execute of handle 1 does not yield the
state (queue = [handle 1], nothing resumed). -/
theorem inline_execute_not_queued_counterexample :
    ¬ (inlineExecute [] (some 1) = ([some 1], [])) := by
  decide

/-- Claim C5, amended: InlineExecutor execute resumes each handle it
receives immediately inline and leaves the local run queue unchanged;
resumption is not deferred to the drive loop. -/
theorem inline_execute_resumes_inline (q : List Handle) (h : Handle) :
    inlineExecute q h = (q, [h]) := rfl

/-- Claim C6: when poller.wait fails with EINTR, react returns success,
dispatches no events, leaves the sources untouched and still hands the
already collected timer handles to the executor; when poller.wait fails
with any other OS error, react returns that error to its caller. -/
theorem react_eintr_and_error_propagation (timeout : Option Int) (ops : List TimerOp)
    (ts0 : Timers) (srcs : SourceMap) (now1 now2 : Int) :
    ((react timeout ops ts0 srcs now1 now2 (.error .interrupted)).res = .ok ()
      ∧ (react timeout ops ts0 srcs now1 now2 (.error .interrupted)).handles
          = (processTimers ops ts0 now1).handles
      ∧ (react timeout ops ts0 srcs now1 now2 (.error .interrupted)).sources = srcs)
    ∧ ∀ c, (react timeout ops ts0 srcs now1 now2 (.error (.os c))).res = .error (.os c) :=
  ⟨⟨rfl, rfl, rfl⟩, fun _ => rfl⟩

/-- Claim C7: whenever the drive loop of InlineExecutor block returns,
the state at that moment has spawn count 0, the result slot filled and
an empty run queue — block exits only through the conjunction
`spawnCount == 0 && hasValue && queue.empty()`. -/
theorem inline_block_exit_state (resume : Handle → InlineState → InlineState)
    (reactStep : InlineState → InlineState) (fuel : Nat) (s sFinal : InlineState)
    (hrun : driveLoop resume reactStep fuel s = some sFinal) :
    sFinal.spawnCount = 0 ∧ sFinal.hasValue = true ∧ sFinal.queue = [] := by
  induction fuel generalizing s with
  | zero => simp [driveLoop] at hrun
  | succ n ih =>
    rw [driveLoop] at hrun
    cases hd : drainQueue resume (n + 1) s with
    | none => simp only [hd] at hrun; cases hrun
    | some s1 =>
      simp only [hd] at hrun
      split at hrun
      next hc =>
        cases hrun
        simp only [Bool.and_eq_true, beq_iff_eq] at hc
        refine ⟨hc.1.1, hc.1.2, ?_⟩
        cases hq : sFinal.queue with
        | nil => rfl
        | cons a l => rw [hq] at hc; exact absurd hc.2 (by simp)
      next hc => exact ih _ hrun

/-- Claim C7, witness: at a state with empty queue, spawn count 0 and a
filled result slot, the drive loop returns at once and the exit state
satisfies the three conditions. -/
theorem inline_block_exit_state_witness :
    (⟨[], 0, true⟩ : InlineState).spawnCount = 0
    ∧ (⟨[], 0, true⟩ : InlineState).hasValue = true
    ∧ (⟨[], 0, true⟩ : InlineState).queue = [] :=
  inline_block_exit_state (fun _ s => s) (fun s => s) 1 ⟨[], 0, true⟩ ⟨[], 0, true⟩ rfl

/-- Claim C8, counterexample: the claim says the dispatch loop never
pushes a null handle. At a writable event for a Source whose write slot
is empty (only a read parker is installed), the dispatch loop takes the
empty write slot and pushes the null handle into the handles vector. -/
theorem dispatch_null_handle_counterexample :
    (dispatchEvents [(0, ⟨⟨some 5⟩, ⟨none⟩⟩)] [⟨0, false, true⟩]).2 = [none] := by
  decide

/-- Claim C8, amended: for an event whose key is in the slab, the handle
pushed is non-null provided the targeted parking slot (the write slot
when the event is writable, otherwise the read slot) is occupied; when
that slot is empty the code pushes a null handle instead. -/
theorem dispatch_handle_nonnull_of_occupied (m : SourceMap) (ev : Event) (st : SourceState)
    (hget : sourcesGet m ev.key = some st)
    (hocc : (if ev.writable then st.write else st.read).isEmpty = false) :
    ((dispatchEvents m [ev]).2.all (fun x => x.isSome)) = true := by
  by_cases hw : ev.writable = true
  · cases hh : st.write.handle with
    | none => rw [if_pos hw] at hocc; simp [Direction.isEmpty, hh] at hocc
    | some a => simp [dispatchEvents, hget, hw, Direction.takeHandle, hh]
  · by_cases hr : ev.readable = true
    · cases hh : st.read.handle with
      | none => rw [if_neg hw] at hocc; simp [Direction.isEmpty, hh] at hocc
      | some a => simp [dispatchEvents, hget, hw, hr, Direction.takeHandle, hh]
    · simp [dispatchEvents, hget, hw, hr]

/-- Claim C8, witness: a writable event for a Source with an occupied
write slot pushes only non-null handles. -/
theorem dispatch_handle_nonnull_witness :
    ((dispatchEvents [(0, ⟨⟨none⟩, ⟨some 4⟩⟩)] [⟨0, false, true⟩]).2.all
      (fun x => x.isSome)) = true :=
  dispatch_handle_nonnull_of_occupied [(0, ⟨⟨none⟩, ⟨some 4⟩⟩)] ⟨0, false, true⟩
    ⟨⟨none⟩, ⟨some 4⟩⟩ (by decide) (by decide)

/-- Claim C9, counterexample: the claim says the comparison
`*waitTimeout != 0s` is never evaluated while waitTimeout is empty. At
an input with no caller timeout and one already-expired timer (so
processTimers returns no duration and waitTimeout stays empty), a
zero-event return from poller.wait reaches the comparison with
waitTimeout empty. -/
theorem react_deref_empty_wait_counterexample :
    (react none [] [(((0 : Int), (2 : Nat)), some 9)] [] 5 5 (.ok [])).derefEmptyWait = true
    ∧ (react none [] [(((0 : Int), (2 : Nat)), some 9)] [] 5 5 (.ok [])).waitUsed = none := by
  decide

/-- Claim C9, amended: the zero-event branch evaluates `*waitTimeout`
unconditionally, and waitTimeout is empty in that branch exactly when
the caller timeout is absent and processTimers returned no duration
(which happens exactly when the ready list was non-empty); the
dereference of the empty optional therefore occurs whenever poller.wait
reports zero events in that state. -/
theorem react_deref_empty_wait_characterization (timeout : Option Int) (ops : List TimerOp)
    (ts0 : Timers) (srcs : SourceMap) (now1 now2 : Int) (events : List Event) :
    (react timeout ops ts0 srcs now1 now2 (.ok events)).derefEmptyWait =
      (events.isEmpty && timeout.isNone && (processTimers ops ts0 now1).duration.isNone) := by
  cases events with
  | cons e es =>
    cases timeout <;> cases hd : (processTimers ops ts0 now1).duration <;>
      simp [react, computeWaitTimeout, hd]
  | nil =>
    cases timeout <;> cases hd : (processTimers ops ts0 now1).duration <;>
      simp [react, computeWaitTimeout, hd] <;> split <;> simp

/-- Claim C10: the claim says insertIo returns a non-null Source on
success and never dereferences the source pointer after moving it into
the slab. On an empty slab with fd 3 and a succeeding poller add, the
code returns the moved-from (null) pointer and has read the key through
the moved-from pointer; on poller-add failure it removes the fresh
entry, restoring the slab, and returns the error. -/
theorem insertIo_use_after_move_at_input :
    ((insertIoFn [] 3 none).ret = .ok none
      ∧ (insertIoFn [] 3 none).derefMovedPtr = true
      ∧ (insertIoFn [] 3 none).slab = [(0, some ⟨3, 0⟩)])
    ∧ ((insertIoFn [] 3 (some 13)).ret = .error 13
      ∧ (insertIoFn [] 3 (some 13)).slab = []
      ∧ (insertIoFn [] 3 (some 13)).derefMovedPtr = true) :=
  ⟨⟨rfl, rfl, rfl⟩, rfl, rfl, rfl⟩

end AsyncIo
